import Mathlib

/-!
Verification of the CO2 sensor poller (`src/main.py`).

The program reads a fixed 8-byte register block from an EE895 sensor over
I2C (`_read_sensor`), decodes it into a validated measurement
(`fetch_sensor_data`, building a pydantic `SensorData`), submits the
measurement to a collector under a bounded retry policy
(`record_reading_api`, tenacity: stop after 3 attempts, fixed wait), and
loops forever in `main`, whose whole body is wrapped by the process-level
`@logger.catch` handler.

The shallow embedding below models:
  - bytes as natural numbers (`smbus2` returns ints in 0..255); a value
    that would make Python's `int.to_bytes(1, "big")` overflow, or a list
    index out of bounds, is the unclassified `DecodeOutcome.crash`;
  - Python float division of these small integers as exact division in ℚ;
  - the Python exception classes on the decode path as an explicit class
    table with its subclass relation;
  - the tenacity retry policy and the poll loop as fuelled recursion, with
    explicit counts of capability invocations / executed cycles.
-/

namespace CO2Sensor

/-- Lowercase hex digit characters, as produced by Python's `bytes.hex()`. -/
def hexDigit : Nat → Char
  | 0 => '0' | 1 => '1' | 2 => '2' | 3 => '3'
  | 4 => '4' | 5 => '5' | 6 => '6' | 7 => '7'
  | 8 => '8' | 9 => '9' | 10 => 'a' | 11 => 'b'
  | 12 => 'c' | 13 => 'd' | 14 => 'e' | _ => 'f'

/-- The two lowercase hex digits of one byte (`b < 256`). -/
def byteHexChars (b : Nat) : List Char :=
  [hexDigit (b / 16), hexDigit (b % 16)]

/-- Python `bytes.hex()`: each byte rendered as two lowercase hex digits. -/
def bytesHex (bs : List Nat) : String :=
  String.mk (bs.foldr (fun b acc => byteHexChars b ++ acc) [])

/-- Big-endian `int.from_bytes` of two bytes (Python default: unsigned). -/
def word16 (hi lo : Nat) : Nat := 256 * hi + lo

/-- The validated measurement record (pydantic model `SensorData`):
`co2 : int` constrained `gt=0`, `temperature : float` unconstrained,
`pressure : float` constrained `gt=0`. Python float division of the raw
16-bit integers is modelled exactly in ℚ. -/
structure SensorData where
  co2 : Nat
  temperature : ℚ
  pressure : ℚ
  deriving DecidableEq, Repr

/-- The classified decode failures raised by `fetch_sensor_data`:
`SensorReadoutError(reserved_hex)` for a reserved-field mismatch, and a
pydantic validation failure naming the offending field for a range
violation. -/
inductive DecodeErr where
  | reservedMismatch (hex : String)
  | outOfRange (field : String)
  deriving DecidableEq, Repr

/-- pydantic construction of `SensorData`: `co2 > 0` and `pressure > 0` are
enforced, `temperature` has no constraint. Fields are declared (and so
validated) in the order co2, temperature, pressure; the model reports the
first failing field. -/
def SensorData.validate (co2 : Nat) (temperature pressure : ℚ) :
    Except DecodeErr SensorData :=
  if 0 < co2 then
    if 0 < pressure then .ok ⟨co2, temperature, pressure⟩
    else .error (.outOfRange "pressure")
  else .error (.outOfRange "co2")

/-- Result of running the decode path on a raw block: `crash` stands for an
uncaught `IndexError` / `OverflowError` (list index out of bounds, or a
value that does not fit in one byte), `fail` for a classified decode error,
`ok` for a constructed measurement. -/
inductive DecodeOutcome where
  | crash
  | fail (e : DecodeErr)
  | ok (m : SensorData)
  deriving DecidableEq, Repr

/-- `read_data[i].to_bytes(1, "big")`: index the block, then require the
value to fit in one byte. -/
def getByte (l : List Nat) (i : Nat) : Option Nat :=
  match l[i]? with
  | none => none
  | some x => if x < 256 then some x else none

/-- The decode part of `fetch_sensor_data` (after `_read_sensor` returned
`read_data`): build the reserved field from bytes 4-5 and compare its hex
rendering against the string "8000" (the code compares `reserved.hex()`),
then decode co2 (bytes 0-1), temperature (bytes 2-3, divided by 100) and
pressure (bytes 6-7, divided by 10) and construct the pydantic model. -/
def fetch_sensor_data (read_data : List Nat) : DecodeOutcome :=
  match getByte read_data 4, getByte read_data 5 with
  | some b4, some b5 =>
    let reserved_hex := bytesHex [b4, b5]
    if reserved_hex ≠ "8000" then .fail (.reservedMismatch reserved_hex)
    else
      match getByte read_data 0, getByte read_data 1, getByte read_data 2,
            getByte read_data 3, getByte read_data 6, getByte read_data 7 with
      | some b0, some b1, some b2, some b3, some b6, some b7 =>
        match SensorData.validate (word16 b0 b1)
            ((word16 b2 b3 : ℚ) / 100) ((word16 b6 b7 : ℚ) / 10) with
        | .ok m => .ok m
        | .error e => .fail e
      | _, _, _, _, _, _ => .crash
  | _, _ => .crash

/-- The Python exception classes relevant to the decode path, from
`src/main.py` (`SensorError(Exception)`, `SensorUnreadableError(SensorError)`,
`SensorReadoutError(SensorError)`) together with `pydantic.ValidationError`,
which is defined outside the module and is not a `SensorError`. -/
inductive PyClass where
  | exceptionBase
  | sensorError
  | sensorUnreadableError
  | sensorReadoutError
  | validationError
  deriving DecidableEq, Repr

/-- The ancestor chain (the class itself up to `Exception`) of each class,
reading the `class C(D)` headers of the source. -/
def PyClass.ancestors : PyClass → List PyClass
  | .exceptionBase => [.exceptionBase]
  | .sensorError => [.sensorError, .exceptionBase]
  | .sensorUnreadableError => [.sensorUnreadableError, .sensorError, .exceptionBase]
  | .sensorReadoutError => [.sensorReadoutError, .sensorError, .exceptionBase]
  | .validationError => [.validationError, .exceptionBase]

/-- Python `issubclass` (reflexive, transitive along the class headers). -/
def PyClass.isSubclassOf (c d : PyClass) : Bool :=
  d ∈ c.ancestors

/-- The exception class actually raised for each classified decode failure:
the reserved-field check raises `SensorReadoutError`, pydantic validation
raises `pydantic.ValidationError`. -/
def DecodeErr.raisedClass : DecodeErr → PyClass
  | .reservedMismatch _ => .sensorReadoutError
  | .outOfRange _ => .validationError

/-- `except H:` catches a raised exception of class `c` iff `c` is a
subclass of `H`. -/
def caughtBy (handler c : PyClass) : Bool :=
  c.isSubclassOf handler

/-- A failure of one `httpx.post` submission attempt (transport error or
non-2xx status from `raise_for_status`), identified by a code. -/
structure SubmitErr where
  code : Nat
  deriving DecidableEq, Repr

/-- Outcome of the retry-wrapped submission step: success, or
`tenacity.RetryError` wrapping the last failed attempt. -/
inductive SubmitOutcome where
  | ok
  | exhausted (last : SubmitErr)
  deriving DecidableEq, Repr

/-- The tenacity loop of `stop=stop_after_attempt(n)`: run attempts
numbered from `attempt`, at most `remaining` of them; a success stops with
that attempt counted; when the last allowed attempt fails, stop with
`RetryError` carrying that failure. The second component counts how many
times the capability was invoked. (`remaining = 0` never arises from
`record_reading_api`, which uses 3.) -/
def retryAttempts (submit : Nat → Except SubmitErr Unit) :
    Nat → Nat → SubmitOutcome × Nat
  | _, 0 => (.ok, 0)
  | attempt, r + 1 =>
    match submit attempt with
    | .ok _ => (.ok, 1)
    | .error e =>
      if r = 0 then (.exhausted e, 1)
      else
        let p := retryAttempts submit (attempt + 1) r
        (p.1, p.2 + 1)

/-- `record_reading_api`: the submission step under
`@tenacity.retry(stop=tenacity.stop_after_attempt(3), wait=tenacity.wait_fixed(3))`,
abstracting one `httpx.post` + `raise_for_status` as the capability
`submit` indexed by attempt number (1-based, as tenacity numbers them). -/
def record_reading_api (submit : Nat → Except SubmitErr Unit) :
    SubmitOutcome × Nat :=
  retryAttempts submit 1 3

/-- A cycle failure as it escapes the loop body of `main`:
`SensorUnreadableError` from the bus, a classified decode failure, an
unclassified decode crash, or `tenacity.RetryError` after exhausted
submission attempts. -/
inductive CycleErr where
  | unreadable
  | decodeFailed (e : DecodeErr)
  | crashed
  | submitExhausted (last : SubmitErr)
  deriving DecidableEq, Repr

/-- One iteration of the `while True:` body of `main`:
`fetch_sensor_data(i2cbus)` (bus read then decode) followed by
`record_reading_api(sensor_data)`. `busRead` is the result of
`_read_sensor`: `.error ()` when the I2C read raises `OSError` (mapped to
`SensorUnreadableError`), `.ok read_data` otherwise. The second component
counts invocations of the submission capability during the cycle. -/
def runCycle (busRead : Except Unit (List Nat))
    (submit : Nat → Except SubmitErr Unit) : Except CycleErr Unit × Nat :=
  match busRead with
  | .error _ => (.error .unreadable, 0)
  | .ok read_data =>
    match fetch_sensor_data read_data with
    | .crash => (.error .crashed, 0)
    | .fail e => (.error (.decodeFailed e), 0)
    | .ok _ =>
      match record_reading_api submit with
      | (.ok, n) => (.ok (), n)
      | (.exhausted e, n) => (.error (.submitExhausted e), n)

/-- Outcome of running `main` for a bounded number of cycles: still inside
the `while True:` loop, or an exception escaped the loop, was logged by the
function-level `@logger.catch` handler, and `main` returned. -/
inductive MainOutcome where
  | running
  | stoppedLogged (e : CycleErr)
  deriving DecidableEq, Repr

/-- The `while True:` loop of `main`, from the given cycle index, observed
for `fuel` scheduled cycles. There is no handler inside the loop: the body
raises straight out of the loop to `@logger.catch`, so an erroring cycle
ends the run. The second component counts cycles that started. -/
def runMain (busRead : Nat → Except Unit (List Nat))
    (submit : Nat → Nat → Except SubmitErr Unit) :
    Nat → Nat → MainOutcome × Nat
  | _, 0 => (.running, 0)
  | cycle, fuel + 1 =>
    match runCycle (busRead cycle) (submit cycle) with
    | (.error e, _) => (.stoppedLogged e, 1)
    | (.ok _, _) =>
      let p := runMain busRead submit (cycle + 1) fuel
      (p.1, p.2 + 1)

/-- `main` in continuous mode, observed for `fuel` scheduled cycles:
`busRead c` is the bus capability's answer in cycle `c`, `submit c a` the
submission capability's answer to attempt `a` of cycle `c`. -/
def mainLoop (busRead : Nat → Except Unit (List Nat))
    (submit : Nat → Nat → Except SubmitErr Unit) (fuel : Nat) :
    MainOutcome × Nat :=
  runMain busRead submit 0 fuel

/-! ## Helper lemmas -/

theorem hexDigit_injOn :
    ∀ m, m < 16 → ∀ n, n < 16 → hexDigit m = hexDigit n → m = n := by
  decide

theorem bytesHex_pair_eq_8000 (b4 b5 : Nat) (h4 : b4 < 256) (h5 : b5 < 256) :
    bytesHex [b4, b5] = "8000" ↔ b4 = 128 ∧ b5 = 0 := by
  constructor
  · intro h
    have h' : String.mk [hexDigit (b4 / 16), hexDigit (b4 % 16),
        hexDigit (b5 / 16), hexDigit (b5 % 16)] =
        String.mk ['8', '0', '0', '0'] := h
    have hl : [hexDigit (b4 / 16), hexDigit (b4 % 16),
        hexDigit (b5 / 16), hexDigit (b5 % 16)] = ['8', '0', '0', '0'] := by
      injection h'
    simp only [List.cons.injEq, and_true] at hl
    obtain ⟨e1, e2, e3, e4⟩ := hl
    have d1 : b4 / 16 = 8 :=
      hexDigit_injOn _ (by omega) 8 (by omega) (e1.trans rfl)
    have d2 : b4 % 16 = 0 :=
      hexDigit_injOn _ (by omega) 0 (by omega) (e2.trans rfl)
    have d3 : b5 / 16 = 0 :=
      hexDigit_injOn _ (by omega) 0 (by omega) (e3.trans rfl)
    have d4 : b5 % 16 = 0 :=
      hexDigit_injOn _ (by omega) 0 (by omega) (e4.trans rfl)
    omega
  · rintro ⟨rfl, rfl⟩
    decide

theorem word16_eq_8000 (b4 b5 : Nat) (_h4 : b4 < 256) (h5 : b5 < 256) :
    word16 b4 b5 = 0x8000 ↔ b4 = 128 ∧ b5 = 0 := by
  unfold word16
  omega

theorem cast_div_ten_pos (n : Nat) : (0 : ℚ) < (n : ℚ) / 10 ↔ 0 < n := by
  rw [lt_div_iff₀ (by norm_num : (0 : ℚ) < 10), zero_mul, Nat.cast_pos]

theorem fetch_eval (b0 b1 b2 b3 b4 b5 b6 b7 : Nat)
    (h0 : b0 < 256) (h1 : b1 < 256) (h2 : b2 < 256) (h3 : b3 < 256)
    (h4 : b4 < 256) (h5 : b5 < 256) (h6 : b6 < 256) (h7 : b7 < 256) :
    fetch_sensor_data [b0, b1, b2, b3, b4, b5, b6, b7] =
      if bytesHex [b4, b5] ≠ "8000" then
        .fail (.reservedMismatch (bytesHex [b4, b5]))
      else
        match SensorData.validate (word16 b0 b1)
            ((word16 b2 b3 : ℚ) / 100) ((word16 b6 b7 : ℚ) / 10) with
        | .ok m => .ok m
        | .error e => .fail e := by
  have g : ∀ i b, (([b0, b1, b2, b3, b4, b5, b6, b7] : List Nat)[i]? = some b) →
      b < 256 → getByte [b0, b1, b2, b3, b4, b5, b6, b7] i = some b := by
    intro i b hi hb
    simp [getByte, hi, hb]
  unfold fetch_sensor_data
  rw [g 0 b0 rfl h0, g 1 b1 rfl h1, g 2 b2 rfl h2, g 3 b3 rfl h3,
    g 4 b4 rfl h4, g 5 b5 rfl h5, g 6 b6 rfl h6, g 7 b7 rfl h7]

end CO2Sensor

namespace CO2Sensor

/-- C5: decoding the block 01 2C 09 60 80 00 03 E8 succeeds with co2 = 300,
temperature = 2400/100 = 24 and pressure = 1000/10 = 100, the divisions
exact in ℚ (no truncation). -/
theorem decode_sample_block :
    fetch_sensor_data [0x01, 0x2C, 0x09, 0x60, 0x80, 0x00, 0x03, 0xE8] =
      .ok ⟨300, 24, 100⟩ ∧
    (2400 : ℚ) / 100 = 24 ∧ (1000 : ℚ) / 10 = 100 := by
  refine ⟨?_, by norm_num, by norm_num⟩
  norm_num [fetch_sensor_data, getByte, bytesHex, byteHexChars, hexDigit,
    word16, SensorData.validate]

/-- C7: decoding the block 00 00 00 00 80 00 00 64 (reserved field valid,
co2 field decodes to 0) fails with the range error naming the co2 field,
and no measurement is produced. -/
theorem decode_zero_co2_out_of_range :
    fetch_sensor_data [0x00, 0x00, 0x00, 0x00, 0x80, 0x00, 0x00, 0x64] =
      .fail (.outOfRange "co2") := by
  norm_num [fetch_sensor_data, getByte, bytesHex, byteHexChars, hexDigit,
    word16, SensorData.validate]

/-- C3: with 8 in-range bytes, a measurement is constructed iff the 16-bit
big-endian field at bytes 4-5 equals 0x8000 and the decoded co2 and
pressure raw fields are strictly positive; any input violating one of
these yields a classified decode error and no measurement. -/
theorem decode_measurement_iff (b0 b1 b2 b3 b4 b5 b6 b7 : Nat)
    (h0 : b0 < 256) (h1 : b1 < 256) (h2 : b2 < 256) (h3 : b3 < 256)
    (h4 : b4 < 256) (h5 : b5 < 256) (h6 : b6 < 256) (h7 : b7 < 256) :
    ((∃ m, fetch_sensor_data [b0, b1, b2, b3, b4, b5, b6, b7] = .ok m) ↔
      (word16 b4 b5 = 0x8000 ∧ 0 < word16 b0 b1 ∧ 0 < word16 b6 b7)) ∧
    (¬(word16 b4 b5 = 0x8000 ∧ 0 < word16 b0 b1 ∧ 0 < word16 b6 b7) →
      ∃ e, fetch_sensor_data [b0, b1, b2, b3, b4, b5, b6, b7] = .fail e) := by
  rw [fetch_eval b0 b1 b2 b3 b4 b5 b6 b7 h0 h1 h2 h3 h4 h5 h6 h7,
    word16_eq_8000 b4 b5 h4 h5]
  by_cases hres : b4 = 128 ∧ b5 = 0
  · have h8 : bytesHex [b4, b5] = "8000" :=
      (bytesHex_pair_eq_8000 b4 b5 h4 h5).mpr hres
    rw [if_neg (by simp [h8])]
    unfold SensorData.validate
    by_cases hc : 0 < word16 b0 b1
    · rw [if_pos hc]
      by_cases hp : 0 < word16 b6 b7
      · rw [if_pos ((cast_div_ten_pos (word16 b6 b7)).mpr hp)]
        exact ⟨by simp [hres, hc, hp], fun hcon => absurd ⟨hres, hc, hp⟩ hcon⟩
      · rw [if_neg (fun hq => hp ((cast_div_ten_pos (word16 b6 b7)).mp hq))]
        refine ⟨⟨fun ⟨m, hm⟩ => by simp at hm, fun ⟨_, _, hp'⟩ => absurd hp' hp⟩,
          fun _ => ⟨_, rfl⟩⟩
    · rw [if_neg hc]
      refine ⟨⟨fun ⟨m, hm⟩ => by simp at hm, fun ⟨_, hc', _⟩ => absurd hc' hc⟩,
        fun _ => ⟨_, rfl⟩⟩
  · have h8 : bytesHex [b4, b5] ≠ "8000" :=
      fun h => hres ((bytesHex_pair_eq_8000 b4 b5 h4 h5).mp h)
    rw [if_pos h8]
    refine ⟨⟨fun ⟨m, hm⟩ => by simp at hm, fun ⟨hr, _⟩ => absurd hr hres⟩,
      fun _ => ⟨_, rfl⟩⟩

/-- C3 witness at the sample block 01 2C 09 60 80 00 03 E8. -/
theorem decode_measurement_iff_witness :
    ((∃ m, fetch_sensor_data [0x01, 0x2C, 0x09, 0x60, 0x80, 0x00, 0x03, 0xE8] =
        .ok m) ↔
      (word16 0x80 0x00 = 0x8000 ∧ 0 < word16 0x01 0x2C ∧ 0 < word16 0x03 0xE8)) ∧
    (¬(word16 0x80 0x00 = 0x8000 ∧ 0 < word16 0x01 0x2C ∧ 0 < word16 0x03 0xE8) →
      ∃ e, fetch_sensor_data [0x01, 0x2C, 0x09, 0x60, 0x80, 0x00, 0x03, 0xE8] =
        .fail e) :=
  decode_measurement_iff 0x01 0x2C 0x09 0x60 0x80 0x00 0x03 0xE8
    (by decide) (by decide) (by decide) (by decide)
    (by decide) (by decide) (by decide) (by decide)

/-- C4: for 8 in-range bytes whose bytes at offsets 4 and 5 are not
0x80 0x00, decode fails with a reserved-mismatch error carrying exactly the
lowercase 4-hex-digit rendering of those two bytes (the co2/pressure
positivity checks are never consulted: the result is the same whatever the
other bytes hold). -/
theorem decode_reserved_mismatch (b0 b1 b2 b3 b4 b5 b6 b7 : Nat)
    (h0 : b0 < 256) (h1 : b1 < 256) (h2 : b2 < 256) (h3 : b3 < 256)
    (h4 : b4 < 256) (h5 : b5 < 256) (h6 : b6 < 256) (h7 : b7 < 256)
    (hres : ¬(b4 = 0x80 ∧ b5 = 0x00)) :
    fetch_sensor_data [b0, b1, b2, b3, b4, b5, b6, b7] =
      .fail (.reservedMismatch (bytesHex [b4, b5])) ∧
    bytesHex [b4, b5] =
      String.mk [hexDigit (b4 / 16), hexDigit (b4 % 16),
        hexDigit (b5 / 16), hexDigit (b5 % 16)] := by
  refine ⟨?_, rfl⟩
  rw [fetch_eval b0 b1 b2 b3 b4 b5 b6 b7 h0 h1 h2 h3 h4 h5 h6 h7]
  exact if_pos (fun h => hres ((bytesHex_pair_eq_8000 b4 b5 h4 h5).mp h))

/-- C4 witness at the block 00 01 00 00 12 34 00 01 (reserved 0x1234),
from the spec's example; the carried string is checked to be "1234". -/
theorem decode_reserved_mismatch_witness :
    (fetch_sensor_data [0x00, 0x01, 0x00, 0x00, 0x12, 0x34, 0x00, 0x01] =
      .fail (.reservedMismatch (bytesHex [0x12, 0x34])) ∧
    bytesHex [0x12, 0x34] =
      String.mk [hexDigit (0x12 / 16), hexDigit (0x12 % 16),
        hexDigit (0x34 / 16), hexDigit (0x34 % 16)]) ∧
    bytesHex [0x12, 0x34] = "1234" :=
  ⟨decode_reserved_mismatch 0x00 0x01 0x00 0x00 0x12 0x34 0x00 0x01
    (by decide) (by decide) (by decide) (by decide)
    (by decide) (by decide) (by decide) (by decide) (by decide),
   by decide⟩

/-- C9: on any list of exactly 8 integers in 0..255 the decode routine is
total: every index is in bounds and every one-byte conversion succeeds, so
it returns either a classified decode error or a measurement — never the
crash outcome. -/
theorem decode_total (b : List Nat) (hlen : b.length = 8)
    (hbytes : ∀ x ∈ b, x < 256) :
    (∃ e, fetch_sensor_data b = .fail e) ∨
    (∃ m, fetch_sensor_data b = .ok m) := by
  obtain ⟨b0, b1, b2, b3, b4, b5, b6, b7, rfl⟩ :
      ∃ c0 c1 c2 c3 c4 c5 c6 c7, b = [c0, c1, c2, c3, c4, c5, c6, c7] := by
    rcases b with _ | ⟨c0, _ | ⟨c1, _ | ⟨c2, _ | ⟨c3, _ | ⟨c4, _ | ⟨c5,
      _ | ⟨c6, _ | ⟨c7, _ | ⟨c8, t⟩⟩⟩⟩⟩⟩⟩⟩⟩ <;>
      first
        | exact ⟨c0, c1, c2, c3, c4, c5, c6, c7, rfl⟩
        | (exfalso; simp only [List.length_cons, List.length_nil] at hlen; omega)
  have h0 : b0 < 256 := hbytes b0 (by simp)
  have h1 : b1 < 256 := hbytes b1 (by simp)
  have h2 : b2 < 256 := hbytes b2 (by simp)
  have h3 : b3 < 256 := hbytes b3 (by simp)
  have h4 : b4 < 256 := hbytes b4 (by simp)
  have h5 : b5 < 256 := hbytes b5 (by simp)
  have h6 : b6 < 256 := hbytes b6 (by simp)
  have h7 : b7 < 256 := hbytes b7 (by simp)
  rw [fetch_eval b0 b1 b2 b3 b4 b5 b6 b7 h0 h1 h2 h3 h4 h5 h6 h7]
  by_cases h8 : bytesHex [b4, b5] = "8000"
  · rw [if_neg (by simp [h8])]
    cases hv : SensorData.validate (word16 b0 b1)
        ((word16 b2 b3 : ℚ) / 100) ((word16 b6 b7 : ℚ) / 10) with
    | ok m => right; exact ⟨m, rfl⟩
    | error e => left; exact ⟨e, rfl⟩
  · rw [if_pos h8]
    left; exact ⟨_, rfl⟩

/-- C9 witness at the all-zero block (which fails the reserved check, a
classified error, not a crash). -/
theorem decode_total_witness :
    (∃ e, fetch_sensor_data [0, 0, 0, 0, 0, 0, 0, 0] = .fail e) ∨
    (∃ m, fetch_sensor_data [0, 0, 0, 0, 0, 0, 0, 0] = .ok m) :=
  decode_total [0, 0, 0, 0, 0, 0, 0, 0] (by decide) (by decide)

/-- C2 (code behaviour at the spec's negative-temperature example): the
block 01 2C FE 0C 80 00 03 E8 carries temperature raw value 0xFE0C, which
as a signed 16-bit value would be -500, i.e. -5.00 °C. The code decodes it
with `int.from_bytes(..., "big")` without `signed=True`, i.e. as the
unsigned 65036, so decode succeeds with temperature 650.36 — a nonnegative
value, not -5. -/
theorem decode_temperature_unsigned :
    fetch_sensor_data [0x01, 0x2C, 0xFE, 0x0C, 0x80, 0x00, 0x03, 0xE8] =
      .ok ⟨300, (65036 : ℚ) / 100, 100⟩ ∧
    (0 : ℚ) ≤ (65036 : ℚ) / 100 ∧ (65036 : ℚ) / 100 ≠ -5 := by
  refine ⟨?_, by norm_num, by norm_num⟩
  norm_num [fetch_sensor_data, getByte, bytesHex, byteHexChars, hexDigit,
    word16, SensorData.validate]

/-- C10: a reserved-field mismatch is raised as `SensorReadoutError`, a
subclass of `SensorError`, while a co2/pressure range failure is raised as
`pydantic.ValidationError`, which is not a subclass of `SensorError`; hence
a handler catching only `SensorError` catches the former and not the
latter. -/
theorem decode_error_classes_disjoint :
    (∀ s, (DecodeErr.reservedMismatch s).raisedClass.isSubclassOf
      .sensorError = true) ∧
    (∀ s, (DecodeErr.outOfRange s).raisedClass.isSubclassOf
      .sensorError = false) ∧
    (∀ s t, caughtBy .sensorError (DecodeErr.reservedMismatch s).raisedClass = true ∧
      caughtBy .sensorError (DecodeErr.outOfRange t).raisedClass = false ∧
      (DecodeErr.reservedMismatch s).raisedClass ≠
        (DecodeErr.outOfRange t).raisedClass) :=
  ⟨fun _ => rfl, fun _ => rfl, fun _ _ => ⟨rfl, rfl, fun h => by simp only [DecodeErr.raisedClass] at h; exact PyClass.noConfusion h⟩⟩

/-- C6: under the tenacity policy `stop_after_attempt(3)`, a capability
that fails on every attempt is invoked exactly 3 times and the step ends
exhausted, carrying attempt 3's (the last) failure; a capability that
fails on attempts 1 and 2 and succeeds on attempt 3 yields overall success
after exactly 3 invocations. -/
theorem submission_retry_three (s1 s2 : Nat → Except SubmitErr Unit)
    (e : Nat → SubmitErr)
    (hfail : ∀ n, s1 n = .error (e n))
    (h1 : s2 1 = .error (e 1)) (h2 : s2 2 = .error (e 2))
    (h3 : s2 3 = .ok ()) :
    record_reading_api s1 = (.exhausted (e 3), 3) ∧
    record_reading_api s2 = (.ok, 3) := by
  constructor
  · unfold record_reading_api
    simp [retryAttempts, hfail 1, hfail 2, hfail 3]
  · unfold record_reading_api
    simp [retryAttempts, h1, h2, h3]

/-- C6 witness: a capability failing every attempt with failure code equal
to the attempt number, and one succeeding only from attempt 3 on. -/
theorem submission_retry_three_witness :
    record_reading_api (fun n => .error ⟨n⟩) = (.exhausted ⟨3⟩, 3) ∧
    record_reading_api (fun n => if n < 3 then .error ⟨n⟩ else .ok ()) =
      (.ok, 3) :=
  submission_retry_three (fun n => .error ⟨n⟩)
    (fun n => if n < 3 then .error ⟨n⟩ else .ok ()) (fun n => ⟨n⟩)
    (fun _ => rfl) rfl rfl rfl

/-- C8: a cycle whose bus read failed, or whose decode did not produce a
measurement, never invokes the submission capability (the cycle's
submission-invocation count is 0). -/
theorem cycle_shortcircuits (busRead : Except Unit (List Nat))
    (submit : Nat → Except SubmitErr Unit)
    (h : ∀ read_data, busRead = .ok read_data →
      ∀ m, fetch_sensor_data read_data ≠ .ok m) :
    (runCycle busRead submit).2 = 0 := by
  cases busRead with
  | error u => rfl
  | ok rd =>
    cases hf : fetch_sensor_data rd with
    | crash => simp [runCycle, hf]
    | fail e => simp [runCycle, hf]
    | ok m => exact absurd hf (h rd rfl m)

/-- C8 witness: a cycle whose block fails the reserved check (all-zero
block) performs no submission attempt. -/
theorem cycle_shortcircuits_witness :
    (runCycle (.ok [0, 0, 0, 0, 0, 0, 0, 0]) (fun _ => .ok ())).2 = 0 :=
  cycle_shortcircuits _ _ (by
    intro rd hrd m
    cases hrd
    intro hok
    have h8 : fetch_sensor_data [0, 0, 0, 0, 0, 0, 0, 0] =
        .fail (.reservedMismatch "0000") := by decide
    rw [h8] at hok
    exact DecodeOutcome.noConfusion hok)

/-- Helper for the poll-loop theorems: starting at cycle `c`, if the next
`k` cycles succeed and cycle `c + k` errors with `e`, a run with more than
`k` cycles of fuel stops at that error after starting exactly `k + 1`
cycles. -/
theorem runMain_stops_at_first_error (busRead : Nat → Except Unit (List Nat))
    (submit : Nat → Nat → Except SubmitErr Unit) :
    ∀ (k c fuel : Nat) (e : CycleErr),
      (∀ i, i < k → (runCycle (busRead (c + i)) (submit (c + i))).1 = .ok ()) →
      (runCycle (busRead (c + k)) (submit (c + k))).1 = .error e →
      k < fuel →
      runMain busRead submit c fuel = (.stoppedLogged e, k + 1)
  | 0, c, fuel, e, _, herr, hfuel => by
    obtain ⟨f, rfl⟩ : ∃ f, fuel = f + 1 := ⟨fuel - 1, by omega⟩
    rcases hrc : runCycle (busRead c) (submit c) with ⟨r, n⟩
    rw [Nat.add_zero, hrc] at herr
    simp only [Prod.fst] at herr
    subst herr
    simp [runMain, hrc]
  | k + 1, c, fuel, e, hok, herr, hfuel => by
    obtain ⟨f, rfl⟩ : ∃ f, fuel = f + 1 := ⟨fuel - 1, by omega⟩
    have hc0 : (runCycle (busRead c) (submit c)).1 = .ok () := by
      simpa using hok 0 (by omega)
    rcases hrc : runCycle (busRead c) (submit c) with ⟨r, n⟩
    rw [hrc] at hc0
    simp only [Prod.fst] at hc0
    subst hc0
    have ih := runMain_stops_at_first_error busRead submit k (c + 1) f e
      (fun i hi => by
        have := hok (i + 1) (by omega)
        rw [show c + (i + 1) = c + 1 + i by omega] at this
        exact this)
      (by rw [show c + 1 + k = c + (k + 1) by omega]; exact herr)
      (by omega)
    simp [runMain, hrc, ih]

/-- C1 counterexample: with the bus failing from cycle 0 and 3 scheduled
cycles, the continuous loop stops after starting only 1 cycle — the error
escapes the `while True:` loop to `@logger.catch` and `main` returns; the
loop does not proceed to the next scheduled cycle. -/
theorem loop_exits_on_error_counterexample :
    mainLoop (fun _ => .error ()) (fun _ _ => .ok ()) 3 =
      (.stoppedLogged .unreadable, 1) ∧
    mainLoop (fun _ => .error ()) (fun _ _ => .ok ()) 3 ≠ (.running, 3) := by
  exact ⟨rfl, by decide⟩

/-- C1 amended: in continuous mode, the first erroring cycle's exception is
caught and logged by the function-level `@logger.catch` handler, but it
terminates the poll loop: if cycles 0..k-1 succeed and cycle k fails with
`e`, then for any fuel above k the run ends as stopped-and-logged with `e`
after starting exactly k + 1 cycles; no later scheduled cycle runs. -/
theorem loop_stops_at_first_error (busRead : Nat → Except Unit (List Nat))
    (submit : Nat → Nat → Except SubmitErr Unit) (k fuel : Nat) (e : CycleErr)
    (hok : ∀ i, i < k → (runCycle (busRead i) (submit i)).1 = .ok ())
    (herr : (runCycle (busRead k) (submit k)).1 = .error e)
    (hfuel : k < fuel) :
    mainLoop busRead submit fuel = (.stoppedLogged e, k + 1) :=
  runMain_stops_at_first_error busRead submit k 0 fuel e
    (fun i hi => by simpa using hok i hi)
    (by simpa using herr) hfuel

/-- C1 amended witness: the bus fails in cycle 0; with 3 scheduled cycles
the run stops after 1 cycle with the unreadable error logged. -/
theorem loop_stops_at_first_error_witness :
    mainLoop (fun _ => .error ()) (fun _ _ => .ok ()) 3 =
      (.stoppedLogged .unreadable, 1) :=
  loop_stops_at_first_error (fun _ => .error ()) (fun _ _ => .ok ()) 0 3
    CycleErr.unreadable (fun i hi => absurd hi (Nat.not_lt_zero i))
    rfl (by decide)

end CO2Sensor
